import Mathlib

/-!
Verification of the graph capture pipeline in src/graph/download_graph.py.

The development shallowly embeds the pure logic of the script:
configuration constants, the resize computation of process_and_save_image,
the status store (load_status_data, save_last_success_time,
mark_stale_applied, check_and_overlay_stale_data), the overlay engine
(add_warning_overlay), the artifact writes of process_and_save_image, and
the retry loop of download_graph_png.  Filesystem state is passed
explicitly; fallible operations are driven by environment records whose
Boolean fields say which underlying operation succeeds.
-/

namespace DownloadGraph

/-! ## Configuration constants (module-level constants of the script) -/

def WARNING_THRESHOLD_HOURS : Nat := 12

def TARGET_MAX_WIDTH : Nat := 720

def TARGET_MAX_HEIGHT : Nat := 437

def CROP_BOTTOM_PIXELS : Nat := 40

/-- Threshold used by check_and_overlay_stale_data, expressed in seconds:
timedelta(hours=WARNING_THRESHOLD_HOURS). Elapsed time is modelled in
integer seconds. -/
def thresholdSeconds : Int := (WARNING_THRESHOLD_HOURS : Int) * 3600

/-! ## Resize computation of process_and_save_image

The script computes
  scale = min(target_width / cropped_img.width, target_height / cropped_img.height)
  new_size = (int(cropped_img.width * scale), int(cropped_img.height * scale))
Division is exact here (modelled in the rationals); int() truncates, which
on the nonnegative values involved is the floor. -/

def resize_scale (w h : Nat) : ℚ :=
  min ((TARGET_MAX_WIDTH : ℚ) / w) ((TARGET_MAX_HEIGHT : ℚ) / h)

def resize_new_size (w h : Nat) : Int × Int :=
  (⌊(w : ℚ) * resize_scale w h⌋, ⌊(h : ℚ) * resize_scale w h⌋)

/-! ## Status store

The JSON record written by save_last_success_time and mark_stale_applied
holds a timestamp, a timezone name and the stale_applied flag.  A missing
key is an Option none; the timestamp string is modelled already parsed, as
an integer number of seconds (an empty / unparseable timestamp collapses
to none, matching the falsiness test `if not data.get(...)`). -/

/-- Abstract file content (the bytes of a file, as one token). -/
abbrev Content := Nat

@[ext]
structure StatusData where
  last_successful_run : Option Int
  timezone : Option String
  stale_applied : Option Bool
deriving DecidableEq, Repr

/-- System state touched by the status store and the fallback path:
the canonical status file (LAST_SUCCESS_FILE), its public mirror
(LAST_SUCCESS_WEB_FILE), and the published master artifact
latest_graph_cropped.png.  A none file is missing or unreadable. -/
structure SysState where
  statusFile : Option StatusData
  statusWebFile : Option StatusData
  masterImage : Option Content
deriving DecidableEq, Repr

/-- load_status_data: reads LAST_SUCCESS_FILE and returns its JSON dict;
a missing or unreadable file gives the empty dict (all keys absent). -/
def load_status_data (s : SysState) : StatusData :=
  match s.statusFile with
  | some d => d
  | none => ⟨none, none, none⟩

/-- save_last_success_time: writes a fresh record with the current
timestamp, the configured timezone name and stale_applied = False to both
the canonical file and the web mirror.  The current time and timezone are
inputs of the model. -/
def save_last_success_time (tz : String) (now : Int) (s : SysState) : SysState :=
  let d : StatusData := ⟨some now, some tz, some false⟩
  { s with statusFile := some d, statusWebFile := some d }

/-- mark_stale_applied: reloads the canonical record; if
last_successful_run is falsy it returns without writing; otherwise it sets
stale_applied = True on the loaded dict and writes that dict to both
mirrors. -/
def mark_stale_applied (s : SysState) : SysState :=
  match (load_status_data s).last_successful_run with
  | none => s
  | some _ =>
    { s with
      statusFile := some { load_status_data s with stale_applied := some true },
      statusWebFile := some { load_status_data s with stale_applied := some true } }

/-- The overlay step of the fallback path, as seen by the status store:
add_warning_overlay on the master artifact returns immediately when the
file does not exist, and otherwise rewrites it with the stamped content.
The stamping transformation ov is a parameter (the overlay engine itself
is modelled separately in detail). -/
def overlay_master (ov : Content → Content) (s : SysState) : SysState :=
  match s.masterImage with
  | none => s
  | some c => { s with masterImage := some (ov c) }

/-- check_and_overlay_stale_data: loads the record; returns if no prior
success is recorded; returns if stale_applied is already True; otherwise
compares the elapsed time against timedelta(hours=WARNING_THRESHOLD_HOURS)
and, strictly past the threshold, overlays the master artifact and marks
stale_applied. -/
def check_and_overlay_stale_data (ov : Content → Content) (now : Int)
    (s : SysState) : SysState :=
  match (load_status_data s).last_successful_run with
  | none => s
  | some t =>
    if (load_status_data s).stale_applied = some true then s
    else if thresholdSeconds < now - t then
      mark_stale_applied (overlay_master ov s)
    else s

/-- Record-level invariant of the spec: stale_applied is never true while
last_successful_run is unset. -/
def statusInv (d : StatusData) : Prop :=
  d.stale_applied = some true → d.last_successful_run ≠ none

instance (d : StatusData) : Decidable (statusInv d) := by
  unfold statusInv; infer_instance

/-- The invariant, lifted to a possibly missing status file. -/
def statusInvOpt : Option StatusData → Prop
  | none => True
  | some d => statusInv d

instance : (o : Option StatusData) → Decidable (statusInvOpt o)
  | none => Decidable.isTrue trivial
  | some d => inferInstanceAs (Decidable (statusInv d))

/-- The invariant, on both mirrored copies of the record. -/
def sysInv (s : SysState) : Prop :=
  statusInvOpt s.statusFile ∧ statusInvOpt s.statusWebFile

instance (s : SysState) : Decidable (sysInv s) :=
  inferInstanceAs (Decidable (_ ∧ _))

/-! ## Overlay engine: add_warning_overlay

The whole body runs inside one try/except that logs and returns on any
exception.  The environment carries the outcomes of the fallible
operations: Image.open, ImageFont.truetype (IOError when the font file is
missing), the text measurement at each candidate font size, and the final
img_obj.save.  The drawing itself is abstracted as a content
transformation env.stamp; the save is modelled atomic. -/

structure OverlayEnv where
  /-- Result of Image.open on the path: the (width, height) of the image,
  or none when decoding raises. -/
  openInfo : Option (Nat × Nat)
  /-- Whether ImageFont.truetype(FONT_PATH, size) succeeds (IOError
  otherwise, size-independent: the font file is there or not). -/
  truetypeOk : Bool
  /-- Rendered text width of the warning string at a given font size. -/
  textWidthAt : Nat → Nat
  /-- Rendered text height of the warning string at a given font size. -/
  textHeightAt : Nat → Nat
  /-- Whether img_obj.save succeeds. -/
  saveOk : Bool
  /-- Effect of the banner rectangle and text drawing on the content. -/
  stamp : Content → Content

/-- Outcome of the font-size selection loop: either a font size with the
text measurements bound by the last measurement, or no measurement ever
taken (the loop body never measured: the Python locals text_width and
text_height are unbound and their first use raises NameError). -/
inductive FontLoopResult where
  | measured (size tw th : Nat)
  | unmeasured
deriving DecidableEq, Repr

/-- The while loop of add_warning_overlay: starting from the initial font
size, shrink by 2 while the size exceeds 5 and the measured text width
exceeds WARNING_TEXT_MAX_WIDTH_RATIO (0.90) of the image width; a truetype
IOError switches to the default font and breaks at once, leaving the
measurements as they were (prev). -/
def font_size_loop (env : OverlayEnv) (width : Nat) (size : Nat)
    (prev : FontLoopResult) : FontLoopResult :=
  if h : 5 < size then
    if env.truetypeOk then
      let tw := env.textWidthAt size
      let th := env.textHeightAt size
      if tw * 10 ≤ width * 9 then FontLoopResult.measured size tw th
      else font_size_loop env width (size - 2) (FontLoopResult.measured size tw th)
    else prev
  else prev
termination_by size
decreasing_by omega

/-- Classified failure points inside the body of add_warning_overlay. -/
inductive OverlayErr where
  | openFailed
  | textUnmeasured
  | saveFailed
deriving DecidableEq, Repr

/-- The body of add_warning_overlay before the enclosing try/except: with
file the current content of img_path (none: the path does not exist, the
function returns at once), produces the content of the file afterwards, or
the exception that escapes the body.  The initial font size is
int(width * FONT_SIZE_BASE_RATIO_WIDTH) with ratio 0.05. -/
def add_warning_overlay_body (env : OverlayEnv) (file : Option Content) :
    Except OverlayErr (Option Content) :=
  match file with
  | none => Except.ok none
  | some c =>
    match env.openInfo with
    | none => Except.error OverlayErr.openFailed
    | some (w, _) =>
      match font_size_loop env w (w * 5 / 100) FontLoopResult.unmeasured with
      | FontLoopResult.unmeasured => Except.error OverlayErr.textUnmeasured
      | FontLoopResult.measured _ _ _ =>
        if env.saveOk then Except.ok (some (env.stamp c))
        else Except.error OverlayErr.saveFailed

/-- add_warning_overlay: the body wrapped in the try/except of the source,
which catches every exception, logs it, and returns normally with the file
keeping its prior content. -/
def add_warning_overlay (env : OverlayEnv) (file : Option Content) :
    Except OverlayErr (Option Content) :=
  match add_warning_overlay_body env file with
  | Except.ok f => Except.ok f
  | Except.error _ => Except.ok file

/-! ## Image pipeline: process_and_save_image

The artifact directory holds the four outputs; the environment carries the
decode result of the raw buffer and the success of each fallible step, and
abstracts each pixel transformation as a function on contents. -/

structure ArtifactFS where
  /-- latest_graph_cropped.png, the cropped master. -/
  croppedPng : Option Content
  /-- latest_graph_compressed.png, the palette-quantized variant. -/
  compressedPng : Option Content
  /-- latest_graph.jpg, the lossy variant. -/
  jpgFile : Option Content
  /-- latest_graph.png, the symlink; holds the target name. -/
  pointer : Option String
deriving DecidableEq, Repr

structure PipelineEnv where
  /-- Image.open on the in-memory buffer: (width, height, pixels), or none
  when decoding raises. -/
  decodeResult : Option (Nat × Nat × Content)
  /-- Effect of img.crop((0, 0, w, h - CROP_BOTTOM_PIXELS)). -/
  cropPix : Content → Content
  /-- Whether cropped_img.save(cropped_path) succeeds. -/
  saveCroppedOk : Bool
  /-- Whether the scale computation and cropped_img.resize succeed. -/
  resizeOk : Bool
  /-- Effect of the LANCZOS resize. -/
  resizePix : Content → Content
  /-- Whether resized_img.quantize and paletted_img.save succeed. -/
  quantizeSaveOk : Bool
  /-- Effect of the MEDIANCUT palette quantization. -/
  quantizePix : Content → Content
  /-- Whether resized_img.save(jpg_path, JPEG) succeeds. -/
  saveJpgOk : Bool
  /-- Effect of the JPEG encoding. -/
  jpegPix : Content → Content
  /-- Whether os.remove of the existing pointer succeeds. -/
  removeOk : Bool
  /-- Whether os.symlink succeeds. -/
  symlinkOk : Bool

/-- process_and_save_image: crop and save the master, resize, save the
quantized PNG and the JPEG, then replace the symlink; every write goes
directly to its final name, and any exception is caught by the enclosing
try/except which returns False, leaving the directory as the completed
steps left it. -/
def process_and_save_image (env : PipelineEnv) (fs : ArtifactFS) :
    Bool × ArtifactFS :=
  match env.decodeResult with
  | none => (false, fs)
  | some (_, _, pix) =>
    let croppedPix := env.cropPix pix
    if env.saveCroppedOk then
      let fs1 := { fs with croppedPng := some croppedPix }
      if env.resizeOk then
        let resizedPix := env.resizePix croppedPix
        if env.quantizeSaveOk then
          let fs2 := { fs1 with compressedPng := some (env.quantizePix resizedPix) }
          if env.saveJpgOk then
            let fs3 := { fs2 with jpgFile := some (env.jpegPix resizedPix) }
            match fs3.pointer with
            | some _ =>
              if env.removeOk then
                let fs4 := { fs3 with pointer := none }
                if env.symlinkOk then
                  (true, { fs4 with pointer := some "latest_graph_cropped.png" })
                else (false, fs4)
              else (false, fs3)
            | none =>
              if env.symlinkOk then
                (true, { fs3 with pointer := some "latest_graph_cropped.png" })
              else (false, fs3)
          else (false, fs2)
        else (false, fs1)
      else (false, fs1)
    else (false, fs)

/-! ## Orchestrator: the retry loop of download_graph_png

One attempt of the for loop either raises an exception somewhere in its
body (navigation, selectors, download, or a later step raising), or runs
process_and_save_image to completion, which returns True or False without
raising.  On True the success path (save_last_success_time,
backup_if_missing) runs and the function returns; on False the function
returns at once; on an exception the loop sleeps and retries while
attempt < FETCH_RETRY_COUNT, and on the last attempt calls
check_and_overlay_stale_data.  The trace of observable events is
modelled. -/

inductive AttemptOutcome where
  /-- An exception escapes the attempt body. -/
  | raisesExc
  /-- process_and_save_image returns False. -/
  | procFails
  /-- process_and_save_image returns True. -/
  | procSucceeds
deriving DecidableEq, Repr

inductive Event where
  | attemptStart (n : Nat)
  | sleepDelay (seconds : Nat)
  | stalenessCheck
  | successRecorded
deriving DecidableEq, Repr

/-- The for loop of download_graph_png from a given attempt number, with
fuel the number of loop iterations still available
(retryCount + 1 - attempt). -/
def download_attempts (outcomes : Nat → AttemptOutcome)
    (retryCount delay attempt fuel : Nat) : List Event :=
  match fuel with
  | 0 => []
  | fuel + 1 =>
    Event.attemptStart attempt ::
      match outcomes attempt with
      | AttemptOutcome.procSucceeds => [Event.successRecorded]
      | AttemptOutcome.procFails => []
      | AttemptOutcome.raisesExc =>
        if attempt < retryCount then
          Event.sleepDelay delay ::
            download_attempts outcomes retryCount delay (attempt + 1) fuel
        else [Event.stalenessCheck]

/-- download_graph_png: for attempt in range(1, FETCH_RETRY_COUNT + 1). -/
def download_graph_png (outcomes : Nat → AttemptOutcome)
    (retryCount delay : Nat) : List Event :=
  download_attempts outcomes retryCount delay 1 retryCount

/-! ## Concrete instances used to evaluate the definitions -/

/-- A concrete stamping transformation for the overlay step. -/
def stampModel : Content → Content := fun c => c + 1

/-- A status record 12h old (timestamp 0, threshold checked at 43200 and
43201 seconds), overlay not yet applied, master artifact present. -/
def boundaryState : SysState :=
  { statusFile := some { last_successful_run := some 0,
                         timezone := some "America/Montreal",
                         stale_applied := some false },
    statusWebFile := some { last_successful_run := some 0,
                            timezone := some "America/Montreal",
                            stale_applied := some false },
    masterImage := some 7 }

/-- A state whose record already has stale_applied = True. -/
def staleAppliedState : SysState :=
  { statusFile := some { last_successful_run := some 0,
                         timezone := some "America/Montreal",
                         stale_applied := some true },
    statusWebFile := some { last_successful_run := some 0,
                            timezone := some "America/Montreal",
                            stale_applied := some true },
    masterImage := some 7 }

/-- A pipeline run that decodes fine, saves the cropped master, and then
fails at the resize step. -/
def pipelineCexEnv : PipelineEnv :=
  { decodeResult := some (800, 500, 10),
    cropPix := fun c => c + 1,
    saveCroppedOk := true,
    resizeOk := false,
    resizePix := fun c => c + 2,
    quantizeSaveOk := true,
    quantizePix := fun c => c + 3,
    saveJpgOk := true,
    jpegPix := fun c => c + 4,
    removeOk := true,
    symlinkOk := true }

/-- The same pipeline run with every step succeeding. -/
def pipelineOkEnv : PipelineEnv :=
  { decodeResult := some (800, 500, 10),
    cropPix := fun c => c + 1,
    saveCroppedOk := true,
    resizeOk := true,
    resizePix := fun c => c + 2,
    quantizeSaveOk := true,
    quantizePix := fun c => c + 3,
    saveJpgOk := true,
    jpegPix := fun c => c + 4,
    removeOk := true,
    symlinkOk := true }

/-- A complete previously published artifact set. -/
def pipelineCexFS : ArtifactFS :=
  { croppedPng := some 1, compressedPng := some 2, jpgFile := some 3,
    pointer := some "latest_graph_cropped.png" }

/-- Attempts that always raise out of the attempt body. -/
def raisingOutcomes : Nat → AttemptOutcome := fun _ => AttemptOutcome.raisesExc

/-! ## Helper lemmas -/

lemma overlay_master_statusFile (ov : Content → Content) (s : SysState) :
    (overlay_master ov s).statusFile = s.statusFile := by
  unfold overlay_master
  cases s.masterImage <;> rfl

lemma load_overlay_master (ov : Content → Content) (s : SysState) :
    load_status_data (overlay_master ov s) = load_status_data s := by
  unfold load_status_data
  rw [overlay_master_statusFile]

lemma mark_stale_statusFile (s : SysState) (t : Int)
    (h : (load_status_data s).last_successful_run = some t) :
    (mark_stale_applied s).statusFile =
      some { load_status_data s with stale_applied := some true } := by
  unfold mark_stale_applied
  rw [h]

/-! ## Claim theorems -/

/-- C1, counterexample: with every attempt failing in the image-processing
step (process_and_save_image returns False) and retry count 3, the run
performs attempt 1 only: no attempt 2 follows the failure at attempt
1 < 3, and no staleness check ever runs.  The claim that any failure of
the image-processing step at attempt n below the retry count causes
attempt n+1 is therefore false of the code. -/
theorem download_procfail_cex :
    download_graph_png (fun _ => AttemptOutcome.procFails) 3 10 =
      [Event.attemptStart 1] ∧
    Event.attemptStart 2 ∉ download_graph_png (fun _ => AttemptOutcome.procFails) 3 10 ∧
    Event.stalenessCheck ∉ download_graph_png (fun _ => AttemptOutcome.procFails) 3 10 := by
  decide

/-- C1, amended: a failure that raises an exception out of the attempt
body at attempt n < retryCount leads to attempt n+1 after the fixed
sleep; such a failure at attempt n with retryCount ≤ n leads to exactly
one staleness-check invocation and termination; but a failure of the
image-processing step (process_and_save_image returning False) terminates
the run at once, with no further attempt and no staleness check. -/
theorem download_retry_behavior (outcomes : Nat → AttemptOutcome)
    (retryCount delay attempt fuel : Nat) :
    (outcomes attempt = AttemptOutcome.raisesExc → attempt < retryCount →
      download_attempts outcomes retryCount delay attempt (fuel + 1) =
        Event.attemptStart attempt :: Event.sleepDelay delay ::
          download_attempts outcomes retryCount delay (attempt + 1) fuel) ∧
    (outcomes attempt = AttemptOutcome.raisesExc → retryCount ≤ attempt →
      download_attempts outcomes retryCount delay attempt (fuel + 1) =
        [Event.attemptStart attempt, Event.stalenessCheck]) ∧
    (outcomes attempt = AttemptOutcome.procFails →
      download_attempts outcomes retryCount delay attempt (fuel + 1) =
        [Event.attemptStart attempt]) := by
  refine ⟨fun h1 h2 => ?_, fun h1 h2 => ?_, fun h1 => ?_⟩
  · simp [download_attempts, h1, h2]
  · simp [download_attempts, h1, Nat.not_lt.mpr h2]
  · simp [download_attempts, h1]

/-- C1, witness: with retry count 3 and delay 10, a raising failure at
attempt 1 is followed by the sleep and attempt 2, and a raising failure
at attempt 3 by the single staleness check. -/
theorem download_retry_behavior_witness :
    (download_attempts raisingOutcomes 3 10 1 3 =
      Event.attemptStart 1 :: Event.sleepDelay 10 ::
        download_attempts raisingOutcomes 3 10 2 2) ∧
    (download_attempts raisingOutcomes 3 10 3 1 =
      [Event.attemptStart 3, Event.stalenessCheck]) :=
  ⟨(download_retry_behavior raisingOutcomes 3 10 1 2).1 rfl (by decide),
   (download_retry_behavior raisingOutcomes 3 10 3 0).2.1 rfl (by decide)⟩

/-- C2, counterexample: a run that saves the cropped master and then
fails at the resize step returns False, yet the published master no
longer holds its prior content while the quantized PNG still does: a
partial subset of new outputs is observable after a failing call. -/
theorem pipeline_partial_write_cex :
    (process_and_save_image pipelineCexEnv pipelineCexFS).1 = false ∧
    (process_and_save_image pipelineCexEnv pipelineCexFS).2.croppedPng ≠
      pipelineCexFS.croppedPng ∧
    (process_and_save_image pipelineCexEnv pipelineCexFS).2.compressedPng =
      pipelineCexFS.compressedPng := by
  decide

/-- C2, amended: the pipeline writes each artifact in place in the fixed
order master, quantized PNG, JPEG, pointer.  A successful call replaces
all four; a failing call leaves the directory in one of the staged states
along that order: untouched, master replaced, master and quantized PNG
replaced, those plus the JPEG replaced, or all three files replaced with
the pointer removed.  All-or-nothing does not hold. -/
theorem pipeline_write_stages (env : PipelineEnv) (fs : ArtifactFS) :
    ((process_and_save_image env fs).1 = true →
      ∃ w h pix, env.decodeResult = some (w, h, pix) ∧
        (process_and_save_image env fs).2 =
          { croppedPng := some (env.cropPix pix),
            compressedPng :=
              some (env.quantizePix (env.resizePix (env.cropPix pix))),
            jpgFile := some (env.jpegPix (env.resizePix (env.cropPix pix))),
            pointer := some "latest_graph_cropped.png" }) ∧
    ((process_and_save_image env fs).1 = false →
      (process_and_save_image env fs).2 = fs ∨
      ∃ w h pix, env.decodeResult = some (w, h, pix) ∧
        ((process_and_save_image env fs).2 =
            { fs with croppedPng := some (env.cropPix pix) } ∨
         (process_and_save_image env fs).2 =
            { fs with croppedPng := some (env.cropPix pix),
                      compressedPng :=
                        some (env.quantizePix (env.resizePix (env.cropPix pix))) } ∨
         (process_and_save_image env fs).2 =
            { fs with croppedPng := some (env.cropPix pix),
                      compressedPng :=
                        some (env.quantizePix (env.resizePix (env.cropPix pix))),
                      jpgFile := some (env.jpegPix (env.resizePix (env.cropPix pix))) } ∨
         (process_and_save_image env fs).2 =
            { croppedPng := some (env.cropPix pix),
              compressedPng :=
                some (env.quantizePix (env.resizePix (env.cropPix pix))),
              jpgFile := some (env.jpegPix (env.resizePix (env.cropPix pix))),
              pointer := none })) := by
  rcases hdec : env.decodeResult with _ | ⟨w0, h0, pix0⟩
  · refine ⟨fun hok => absurd hok ?_, fun _ => Or.inl ?_⟩ <;>
      simp [process_and_save_image, hdec]
  · rcases hsc : env.saveCroppedOk with _ | _
    · refine ⟨fun hok => absurd hok ?_, fun _ => Or.inl ?_⟩ <;>
        simp [process_and_save_image, hdec, hsc]
    · rcases hro : env.resizeOk with _ | _
      · refine ⟨fun hok => absurd hok ?_,
          fun _ => Or.inr ⟨w0, h0, pix0, rfl, Or.inl ?_⟩⟩ <;>
          simp [process_and_save_image, hdec, hsc, hro]
      · rcases hqs : env.quantizeSaveOk with _ | _
        · refine ⟨fun hok => absurd hok ?_,
            fun _ => Or.inr ⟨w0, h0, pix0, rfl, Or.inl ?_⟩⟩ <;>
            simp [process_and_save_image, hdec, hsc, hro, hqs]
        · rcases hsj : env.saveJpgOk with _ | _
          · refine ⟨fun hok => absurd hok ?_,
              fun _ => Or.inr ⟨w0, h0, pix0, rfl, Or.inr (Or.inl ?_)⟩⟩ <;>
              simp [process_and_save_image, hdec, hsc, hro, hqs, hsj]
          · rcases hp : fs.pointer with _ | p
            · rcases hsl : env.symlinkOk with _ | _
              · refine ⟨fun hok => absurd hok ?_,
                  fun _ => Or.inr ⟨w0, h0, pix0, rfl, Or.inr (Or.inr (Or.inl ?_))⟩⟩ <;>
                  simp [process_and_save_image, hdec, hsc, hro, hqs, hsj, hp, hsl]
              · refine ⟨fun _ => ⟨w0, h0, pix0, rfl, ?_⟩,
                  fun hfail => absurd hfail ?_⟩ <;>
                  simp [process_and_save_image, hdec, hsc, hro, hqs, hsj, hp, hsl]
            · rcases hrm : env.removeOk with _ | _
              · refine ⟨fun hok => absurd hok ?_,
                  fun _ => Or.inr ⟨w0, h0, pix0, rfl, Or.inr (Or.inr (Or.inl ?_))⟩⟩ <;>
                  simp [process_and_save_image, hdec, hsc, hro, hqs, hsj, hp, hrm]
              · rcases hsl : env.symlinkOk with _ | _
                · refine ⟨fun hok => absurd hok ?_,
                    fun _ => Or.inr ⟨w0, h0, pix0, rfl, Or.inr (Or.inr (Or.inr ?_))⟩⟩ <;>
                    simp [process_and_save_image, hdec, hsc, hro, hqs, hsj, hp, hrm, hsl]
                · refine ⟨fun _ => ⟨w0, h0, pix0, rfl, ?_⟩,
                    fun hfail => absurd hfail ?_⟩ <;>
                    simp [process_and_save_image, hdec, hsc, hro, hqs, hsj, hp, hrm, hsl]

/-- C2, witness: the fully successful run replaces all four artifacts
with the newly derived contents. -/
theorem pipeline_write_stages_witness :
    ∃ w h pix, pipelineOkEnv.decodeResult = some (w, h, pix) ∧
      (process_and_save_image pipelineOkEnv pipelineCexFS).2 =
        { croppedPng := some (pipelineOkEnv.cropPix pix),
          compressedPng :=
            some (pipelineOkEnv.quantizePix
              (pipelineOkEnv.resizePix (pipelineOkEnv.cropPix pix))),
          jpgFile := some (pipelineOkEnv.jpegPix
            (pipelineOkEnv.resizePix (pipelineOkEnv.cropPix pix))),
          pointer := some "latest_graph_cropped.png" } :=
  (pipeline_write_stages pipelineOkEnv pipelineCexFS).1 (by decide)

/-- C3, counterexample: for a cropped image of 100 by 100, the computed
scale factor min(720/100, 437/100) = 4.37 exceeds 1 and the produced
output width is 437, strictly beyond the native resolution 100: the code
does upscale when the scale factor exceeds 1. -/
theorem resize_upscale_cex :
    1 < resize_scale 100 100 ∧
    (resize_new_size 100 100).1 = 437 ∧
    (100 : Int) < (resize_new_size 100 100).1 := by
  have h1 : resize_scale 100 100 = 437 / 100 := by
    unfold resize_scale TARGET_MAX_WIDTH TARGET_MAX_HEIGHT
    rw [min_eq_right] <;> norm_num
  have h2 : (resize_new_size 100 100).1 = 437 := by
    unfold resize_new_size
    rw [h1]
    norm_num
  exact ⟨by rw [h1]; norm_num, h2, by rw [h2]; norm_num⟩

/-- C3, amended: for every cropped size w > 0, h > 0, the output
(int(w*scale), int(h*scale)) with scale = min(targetWidth/w,
targetHeight/h) never exceeds the target box, and each output dimension
is within one pixel of the exact aspect-preserving value w*scale resp.
h*scale; the no-upscaling part of the claim is dropped, since the code
does not clamp the scale factor at 1. -/
theorem resize_box_and_aspect (w h : Nat) (hw : 0 < w) (hh : 0 < h) :
    (resize_new_size w h).1 ≤ (TARGET_MAX_WIDTH : Int) ∧
    (resize_new_size w h).2 ≤ (TARGET_MAX_HEIGHT : Int) ∧
    |((resize_new_size w h).1 : ℚ) - (w : ℚ) * resize_scale w h| < 1 ∧
    |((resize_new_size w h).2 : ℚ) - (h : ℚ) * resize_scale w h| < 1 := by
  have hw' : (0:ℚ) < w := by exact_mod_cast hw
  have hh' : (0:ℚ) < h := by exact_mod_cast hh
  refine ⟨?_, ?_, ?_, ?_⟩
  · have key : (w:ℚ) * resize_scale w h ≤ (TARGET_MAX_WIDTH : ℚ) := by
      have hle := min_le_left ((TARGET_MAX_WIDTH : ℚ) / w) ((TARGET_MAX_HEIGHT : ℚ) / h)
      calc (w:ℚ) * resize_scale w h ≤ (w:ℚ) * ((TARGET_MAX_WIDTH : ℚ) / w) :=
            mul_le_mul_of_nonneg_left hle (le_of_lt hw')
        _ = (TARGET_MAX_WIDTH : ℚ) := by field_simp
    have hfl := Int.floor_le_floor key
    simpa [resize_new_size] using hfl
  · have key : (h:ℚ) * resize_scale w h ≤ (TARGET_MAX_HEIGHT : ℚ) := by
      have hle := min_le_right ((TARGET_MAX_WIDTH : ℚ) / w) ((TARGET_MAX_HEIGHT : ℚ) / h)
      calc (h:ℚ) * resize_scale w h ≤ (h:ℚ) * ((TARGET_MAX_HEIGHT : ℚ) / h) :=
            mul_le_mul_of_nonneg_left hle (le_of_lt hh')
        _ = (TARGET_MAX_HEIGHT : ℚ) := by field_simp
    have hfl := Int.floor_le_floor key
    simpa [resize_new_size] using hfl
  · rw [abs_sub_lt_iff]
    constructor
    · have hfl := Int.floor_le ((w:ℚ) * resize_scale w h)
      simp only [resize_new_size]
      linarith
    · have hfl := Int.lt_floor_add_one ((w:ℚ) * resize_scale w h)
      simp only [resize_new_size]
      linarith
  · rw [abs_sub_lt_iff]
    constructor
    · have hfl := Int.floor_le ((h:ℚ) * resize_scale w h)
      simp only [resize_new_size]
      linarith
    · have hfl := Int.lt_floor_add_one ((h:ℚ) * resize_scale w h)
      simp only [resize_new_size]
      linarith

/-- C3, witness: at the observed crop size 1000 by 540 the output fits
the 720 by 437 box and both dimensions sit within one pixel of the exact
scaled values. -/
theorem resize_box_and_aspect_witness :
    (resize_new_size 1000 540).1 ≤ (TARGET_MAX_WIDTH : Int) ∧
    (resize_new_size 1000 540).2 ≤ (TARGET_MAX_HEIGHT : Int) ∧
    |((resize_new_size 1000 540).1 : ℚ) - (1000 : ℚ) * resize_scale 1000 540| < 1 ∧
    |((resize_new_size 1000 540).2 : ℚ) - (540 : ℚ) * resize_scale 1000 540| < 1 :=
  resize_box_and_aspect 1000 540 (by norm_num) (by norm_num)

/-- C4: when the loaded record already has stale_applied = True,
check_and_overlay_stale_data leaves the whole state (master image and
both status mirrors) unchanged; and running the check twice in a row
gives exactly the state of running it once, so the overlay is applied at
most once. -/
theorem check_stale_idempotent (ov : Content → Content) (now : Int) (s : SysState) :
    ((load_status_data s).stale_applied = some true →
      check_and_overlay_stale_data ov now s = s) ∧
    check_and_overlay_stale_data ov now (check_and_overlay_stale_data ov now s) =
      check_and_overlay_stale_data ov now s := by
  have guard : ∀ s2 : SysState, (load_status_data s2).stale_applied = some true →
      check_and_overlay_stale_data ov now s2 = s2 := by
    intro s2 h
    unfold check_and_overlay_stale_data
    cases hr : (load_status_data s2).last_successful_run with
    | none => rfl
    | some t => simp [h]
  refine ⟨guard s, ?_⟩
  cases hr : (load_status_data s).last_successful_run with
  | none =>
    have h1 : check_and_overlay_stale_data ov now s = s := by
      unfold check_and_overlay_stale_data; rw [hr]
    rw [h1, h1]
  | some t =>
    by_cases hs : (load_status_data s).stale_applied = some true
    · rw [guard s hs, guard s hs]
    · by_cases ht : thresholdSeconds < now - t
      · have h1 : check_and_overlay_stale_data ov now s =
            mark_stale_applied (overlay_master ov s) := by
          unfold check_and_overlay_stale_data
          rw [hr]
          simp [hs, ht]
        have h2 : (load_status_data (mark_stale_applied (overlay_master ov s))).stale_applied
            = some true := by
          have hmk := mark_stale_statusFile (overlay_master ov s) t
            (by rw [load_overlay_master]; exact hr)
          unfold load_status_data
          rw [hmk]
        rw [h1, guard _ h2]
      · have h1 : check_and_overlay_stale_data ov now s = s := by
          unfold check_and_overlay_stale_data
          rw [hr]
          simp [hs, ht]
        rw [h1, h1]

/-- C4, witness: on a state whose record already has stale_applied =
True, the check leaves the state unchanged. -/
theorem check_stale_idempotent_witness :
    check_and_overlay_stale_data stampModel 99999 staleAppliedState =
      staleAppliedState :=
  (check_stale_idempotent stampModel 99999 staleAppliedState).1 rfl

/-- C5: save_last_success_time overwrites the canonical record with the
fresh timestamp, the configured timezone name and stale_applied = False,
whatever the prior state held, and the web mirror receives the identical
record. -/
theorem save_success_resets_record (tz : String) (now : Int) (s : SysState) :
    (save_last_success_time tz now s).statusFile =
      some { last_successful_run := some now, timezone := some tz,
             stale_applied := some false } ∧
    (save_last_success_time tz now s).statusWebFile =
      (save_last_success_time tz now s).statusFile :=
  ⟨rfl, rfl⟩

/-- C6: for a record with a set last_successful_run and stale_applied not
True, check_and_overlay_stale_data applies the overlay and marks the
record exactly when the elapsed time strictly exceeds the threshold;
elapsed time at or below the threshold leaves the state unchanged. -/
theorem check_stale_threshold_boundary (ov : Content → Content) (now t : Int)
    (s : SysState)
    (h1 : (load_status_data s).last_successful_run = some t)
    (h2 : (load_status_data s).stale_applied ≠ some true) :
    (now - t ≤ thresholdSeconds → check_and_overlay_stale_data ov now s = s) ∧
    (thresholdSeconds < now - t →
      check_and_overlay_stale_data ov now s =
        mark_stale_applied (overlay_master ov s)) := by
  constructor
  · intro hle
    unfold check_and_overlay_stale_data
    rw [h1]
    simp [h2, not_lt.mpr hle]
  · intro hlt
    unfold check_and_overlay_stale_data
    rw [h1]
    simp [h2, hlt]

/-- C6, witness: with the last success at timestamp 0 and the threshold
at 43200 seconds, a check at 43200 (exactly the threshold) changes
nothing and a check at 43201 (one second past) applies the overlay and
marks the record. -/
theorem check_stale_threshold_boundary_witness :
    (check_and_overlay_stale_data stampModel 43200 boundaryState = boundaryState) ∧
    (check_and_overlay_stale_data stampModel 43201 boundaryState =
      mark_stale_applied (overlay_master stampModel boundaryState)) :=
  ⟨(check_stale_threshold_boundary stampModel 43200 0 boundaryState rfl
      (by decide)).1 (by decide),
   (check_stale_threshold_boundary stampModel 43201 0 boundaryState rfl
      (by decide)).2 (by decide)⟩

/-- C7: the record invariant (stale_applied never True while
last_successful_run is unset) holds of both mirrors after
save_last_success_time unconditionally, is preserved by
mark_stale_applied, and mark_stale_applied writes nothing at all when the
loaded record has no last_successful_run. -/
theorem status_invariant_preserved (tz : String) (now : Int) (s : SysState)
    (hs : sysInv s) :
    sysInv (save_last_success_time tz now s) ∧
    sysInv (mark_stale_applied s) ∧
    ((load_status_data s).last_successful_run = none → mark_stale_applied s = s) := by
  refine ⟨?_, ?_, ?_⟩
  · constructor <;> simp [save_last_success_time, statusInvOpt, statusInv]
  · cases hr : (load_status_data s).last_successful_run with
    | none =>
      unfold mark_stale_applied
      rw [hr]
      exact hs
    | some t =>
      unfold mark_stale_applied
      rw [hr]
      constructor <;> simp [statusInvOpt, statusInv, hr]
  · intro hnone
    unfold mark_stale_applied
    rw [hnone]

/-- C7, witness: both writers preserve the invariant on a concrete
well-formed state. -/
theorem status_invariant_preserved_witness :
    sysInv (save_last_success_time "America/Montreal" 5 boundaryState) ∧
    sysInv (mark_stale_applied boundaryState) ∧
    ((load_status_data boundaryState).last_successful_run = none →
      mark_stale_applied boundaryState = boundaryState) :=
  status_invariant_preserved "America/Montreal" 5 boundaryState (by decide)

/-- C8: add_warning_overlay returns normally on every input: whatever the
outcomes of opening the image, loading the font, measuring the text and
saving the file, the enclosing try/except turns every failure of the body
into a logged, normal return. -/
theorem overlay_never_propagates (env : OverlayEnv) (file : Option Content) :
    ∃ f, add_warning_overlay env file = Except.ok f := by
  unfold add_warning_overlay
  cases add_warning_overlay_body env file with
  | ok f => exact ⟨f, rfl⟩
  | error e => exact ⟨file, rfl⟩

/-- C9: mark_stale_applied, on a record with last_successful_run set,
writes back exactly the loaded last_successful_run and timezone with only
stale_applied changed, writes the same record to both mirrors, and leaves
the master image untouched. -/
theorem mark_stale_frame (s : SysState) (t : Int)
    (h : (load_status_data s).last_successful_run = some t) :
    (mark_stale_applied s).statusFile =
      some { last_successful_run := some t,
             timezone := (load_status_data s).timezone,
             stale_applied := some true } ∧
    (mark_stale_applied s).statusWebFile = (mark_stale_applied s).statusFile ∧
    (mark_stale_applied s).masterImage = s.masterImage := by
  unfold mark_stale_applied
  rw [h]
  refine ⟨?_, rfl, rfl⟩
  simp only [Option.some.injEq]
  exact StatusData.ext h rfl rfl

/-- C9, witness: on a concrete record the frame condition holds. -/
theorem mark_stale_frame_witness :
    (mark_stale_applied boundaryState).statusFile =
      some { last_successful_run := some 0,
             timezone := (load_status_data boundaryState).timezone,
             stale_applied := some true } ∧
    (mark_stale_applied boundaryState).statusWebFile =
      (mark_stale_applied boundaryState).statusFile ∧
    (mark_stale_applied boundaryState).masterImage = boundaryState.masterImage :=
  mark_stale_frame boundaryState 0 rfl

/-- C10: when the image path does not exist (file content none),
add_warning_overlay returns normally at once and the file stays absent:
nothing is created or modified. -/
theorem overlay_missing_file_noop (env : OverlayEnv) :
    add_warning_overlay env none = Except.ok none := rfl

end DownloadGraph
